import Mathlib

/-!
# The `service` command of the node (`cmd/commands/service/command.go`)

A shallow embedding of the command that starts the node and its services, and of the
concurrent random source exercised by `utils/random/concurrent_test.go`.

Conventions of the embedding.

* A Go `error` value is an `Option GoError`: `none` is `nil`.
* A function with side effects returns the list of `Event`s it performs, in program order.
* What a collaborator outside the source files computes (`di.Bootstrap`, `di.Node.Wait`,
  `StartServiceByType`, `di.Shutdown`, the flag parsers of other packages, `strconv.Quote`)
  is read from a record: `Packages` for constants and pure functions, `World` for behaviour.
* A goroutine that never returns reports `none : Option (Option GoError)`.
-/

namespace ServiceCommand

/-! ## Data model -/

/-- Go error values, compared by identity as the `switch` of `runServices` does.
`ErrorLocation` is the sentinel `service.ErrorLocation`, `errorString text` is a value built
by `fmt.Errorf` in this file, `foreign id` is any other error a collaborator hands over. -/
inductive GoError where
  | ErrorLocation
  | errorString (text : String)
  | foreign (id : Nat)
  deriving DecidableEq, Repr

/-- The Go type `error`: `none` is `nil`. -/
abbrev Error := Option GoError

/-- The struct `service.Options`. `Type_` and `Options_` are its fields `Type` and
`Options`; the latter is the type-specific payload, `none` when the literal leaves it out. -/
structure Options where
  Identity : String
  Passphrase : String
  Type_ : String
  Options_ : Option String
  deriving DecidableEq, Repr

/-- The zero value of `service.Options`. -/
def Options.zero : Options :=
  { Identity := "", Passphrase := "", Type_ := "", Options_ := none }

/-- The part of `*cli.Context` that the command reads: flag lookup by name. -/
structure Context where
  Bool : String → Bool
  String : String → String

/-- Constants and pure functions of packages that are not among the source files. -/
structure Packages where
  /-- The value of `cmd.LocationCountryFlag.Name`. -/
  LocationCountryFlagName : String
  /-- The value of `license.LicenseWarrantyFlag.Name`. -/
  LicenseWarrantyFlagName : String
  /-- The value of `license.LicenseConditionsFlag.Name`. -/
  LicenseConditionsFlagName : String
  /-- The function `metadata.VersionAsSummary`. -/
  VersionAsSummary : String → String
  /-- The function `metadata.LicenseCopyright`. -/
  LicenseCopyright : String → String → String
  /-- The function `cmd.ParseFlagsNode`, its result kept as an uninterpreted token. -/
  ParseFlagsNode : Context → String
  /-- The function `openvpn_service.ParseFlags`, its result kept as an uninterpreted token. -/
  openvpnParseFlags : Context → String
  /-- The names of the flags `openvpn_service.RegisterFlags` appends. -/
  openvpnFlags : List String
  /-- The quoting that the verb `%q` of package `fmt` applies to a string. -/
  Quote : String → String

/-- What the collaborators do during one invocation. -/
structure World where
  /-- The result of `di.Bootstrap` on the parsed node options. -/
  Bootstrap : String → Error
  /-- What `di.Node.Wait()` returns, `none` when it never returns. -/
  Wait : Option Error
  /-- What `di.ServiceRunner.StartServiceByType` returns, `none` when it never returns. -/
  StartServiceByType : String → Options → Option Error
  /-- What `di.Shutdown()` returns. -/
  Shutdown : Error
  /-- Whether an interrupt signal reaches the registered callback. -/
  interrupt : Bool
  /-- The schedule: positions of the producers, in the order in which they get to write. -/
  order : List Nat

/-! ## Constants of the file -/

def serviceCommandName : String := "service"

def identityFlag.Name : String := "identity"

def identityPassphraseFlag.Name : String := "identity.passphrase"

def agreedTermsConditionsFlag.Name : String := "agreed-terms-and-conditions"

/-- Modelled from the spec: the constant `ServiceType` of package `services/noop`, which is
not among the source files; the spec names the three registered types and `NewCommand`
passes this one as `"noop"`. -/
def service_noop.ServiceType : String := "noop"

/-- Modelled from the spec: the constant `ServiceType` of package `services/openvpn`, which
is not among the source files; `NewCommand` passes it as `"openvpn"`. -/
def service_openvpn.ServiceType : String := "openvpn"

/-- Modelled from the spec: the constant `ServiceType` of package `services/wireguard`,
which is not among the source files; `NewCommand` passes it as `"wireguard"`. -/
def service_wireguard.ServiceType : String := "wireguard"

/-! ## Option parsing -/

/-- The function `parseOpenvpnFlags`. -/
def parseOpenvpnFlags (pkg : Packages) (ctx : Context) : Options :=
  { Identity := ctx.String identityFlag.Name
    Passphrase := ctx.String identityPassphraseFlag.Name
    Type_ := service_openvpn.ServiceType
    Options_ := some (pkg.openvpnParseFlags ctx) }

/-- The function `parseNoopFlags`. -/
def parseNoopFlags (ctx : Context) : Options :=
  { Identity := ctx.String identityFlag.Name
    Passphrase := ctx.String identityPassphraseFlag.Name
    Type_ := service_noop.ServiceType
    Options_ := none }

/-- The function `parseWireguardFlags`. -/
def parseWireguardFlags (ctx : Context) : Options :=
  { Identity := ctx.String identityFlag.Name
    Passphrase := ctx.String identityPassphraseFlag.Name
    Type_ := service_wireguard.ServiceType
    Options_ := none }

/-- The function `parseFlagsByServiceType`: the `switch` tries the cases in source order. -/
def parseFlagsByServiceType (pkg : Packages) (ctx : Context) (serviceType : String) :
    Options × Error :=
  if serviceType = service_noop.ServiceType then
    (parseNoopFlags ctx, none)
  else if serviceType = service_openvpn.ServiceType then
    (parseOpenvpnFlags pkg ctx, none)
  else if serviceType = service_wireguard.ServiceType then
    (parseWireguardFlags ctx, none)
  else
    (Options.zero,
      some (GoError.errorString ("Unknown service type: " ++ pkg.Quote serviceType)))

/-! ## Side effects, goroutines and the error channel -/

/-- The body of a goroutine started by `runServices`: what it reports on the channel. -/
inductive Task where
  | nodeWait
  | startService (serviceType : String) (options : Options)
  deriving DecidableEq, Repr

/-- The side effects of the command, in program order; `parseFlags` records a call of
`parseFlagsByServiceType`, `receive` the start of `<-errorChannel`. -/
inductive Event where
  | stdout (text : String)
  | exit (code : Nat)
  | makeChan (capacity : Nat)
  | bootstrap (nodeOptions : String)
  | go (task : Task)
  | parseFlags (serviceType : String)
  | registerSignalCallback
  | receive
  deriving DecidableEq, Repr

/-- How a call ends: it returns an error value, the process exits, or the caller stays
blocked on the channel for ever. -/
inductive Result where
  | returned (err : Error)
  | exited (code : Nat)
  | blocked
  deriving DecidableEq, Repr

/-- The effects and the outcome of one call. -/
structure Run where
  trace : List Event
  result : Result
  deriving DecidableEq, Repr

/-- Whoever holds the channel for writing: a goroutine or the signal callback. -/
inductive Producer where
  | task (t : Task)
  | signalCallback
  deriving DecidableEq, Repr

/-- The single value a producer writes, `none` when it never gets to write. -/
def Producer.report (w : World) : Producer → Option Error
  | .task .nodeWait => w.Wait
  | .task (.startService serviceType options) => w.StartServiceByType serviceType options
  | .signalCallback => if w.interrupt then some none else none

/-- The producers a trace has started, in the order of their start. -/
def producers : List Event → List Producer
  | [] => []
  | .go t :: es => .task t :: producers es
  | .registerSignalCallback :: es => .signalCallback :: producers es
  | _ :: es => producers es

/-- The order in which the producers get their turn: each number of the schedule picks one
of the producers still pending (modulo their count), so nobody is picked twice. Producers the
schedule does not reach never write. -/
def scheduled : List Nat → List Producer → List Producer
  | [], _ => []
  | _ :: _, [] => []
  | i :: is, p :: ps =>
    (p :: ps).getD (i % (p :: ps).length) p ::
      scheduled is ((p :: ps).eraseIdx (i % (p :: ps).length))

/-- The values written to the channel, in the order of the writes. -/
def writes (w : World) (ps : List Producer) : List Error :=
  (scheduled w.order ps).filterMap (Producer.report w)

/-- A buffered Go channel of errors. `waiting` holds the values of the senders that are
blocked, `stalls` counts the sends that found the buffer full. -/
structure Chan where
  capacity : Nat
  buffer : List Error
  waiting : List Error
  stalls : Nat
  deriving DecidableEq, Repr

/-- The expression `make(chan error, capacity)`. -/
def Chan.make (capacity : Nat) : Chan :=
  { capacity := capacity, buffer := [], waiting := [], stalls := 0 }

/-- The statement `c <- v`: the value enters the buffer if there is room, else the sender
blocks. -/
def Chan.send (c : Chan) (v : Error) : Chan :=
  if c.buffer.length < c.capacity then
    { c with buffer := c.buffer ++ [v] }
  else
    { c with waiting := c.waiting ++ [v], stalls := c.stalls + 1 }

/-- The expression `<-c`: the oldest value, `none` when nothing has been sent (the receiver
blocks); a blocked sender moves up into the freed slot. -/
def Chan.receive (c : Chan) : Option Error × Chan :=
  match c.buffer, c.waiting with
  | v :: vs, [] => (some v, { c with buffer := vs })
  | v :: vs, x :: xs => (some v, { c with buffer := vs ++ [x], waiting := xs })
  | [], x :: xs => (some x, { c with waiting := xs })
  | [], [] => (none, c)

/-- One operation on the channel, by a producer or by the consumer. -/
inductive ChanOp where
  | send (v : Error)
  | receive
  deriving DecidableEq, Repr

/-- The value an operation sends, if it is a send. -/
def ChanOp.sent : ChanOp → Option Error
  | .send v => some v
  | .receive => none

/-- The channel after a sequence of operations. -/
def Chan.run (c : Chan) : List ChanOp → Chan
  | [] => c
  | .send v :: ops => (c.send v).run ops
  | .receive :: ops => c.receive.2.run ops

/-! ## The command -/

/-- The function `printTermWarning`: three `fmt.Println` calls. -/
def printTermWarning (pkg : Packages) (licenseCommandName : String) : List Event :=
  [ .stdout (pkg.VersionAsSummary (pkg.LicenseCopyright
      ("run program with 'myst " ++ licenseCommandName ++ " --" ++
        pkg.LicenseWarrantyFlagName ++ "' option")
      ("run program with 'myst " ++ licenseCommandName ++ " --" ++
        pkg.LicenseConditionsFlagName ++ "' option")) ++ "\n"),
    .stdout "\n",
    .stdout ("If you agree with these Terms & Conditions, run program again with " ++
      "'--agreed-terms-and-conditions' flag" ++ "\n") ]

/-- The text `fmt.Printf` writes in `printLocationWarning`: the three `%s` verbs take the
executable name, `serviceCommandName` and the name of the location country flag. -/
def locationWarningText (pkg : Packages) (executableName : String) : String :=
  "Automatic location detection failed. Enter country manually by running program again " ++
    "with '" ++ executableName ++ " " ++ serviceCommandName ++ " --" ++
    pkg.LocationCountryFlagName ++ "=US' flag"

/-- The function `printLocationWarning`: one `fmt.Printf`, then `fmt.Println()`. -/
def printLocationWarning (pkg : Packages) (executableName : String) : List Event :=
  [ .stdout (locationWarningText pkg executableName), .stdout "\n" ]

/-- The loop of `runServices` over the service types: parse the options of a type, return
at the first error, else start the goroutine of that type and go on. -/
def startServices (pkg : Packages) (ctx : Context) : List String → List Event × Error
  | [] => ([], none)
  | serviceType :: rest =>
    match parseFlagsByServiceType pkg ctx serviceType with
    | (_, some err) => ([.parseFlags serviceType], some err)
    | (options, none) =>
      ((.parseFlags serviceType :: .go (.startService serviceType options) ::
          (startServices pkg ctx rest).1),
        (startServices pkg ctx rest).2)

/-- The effects of `runServices` from `make(chan error, ...)` up to and including
`cmd.RegisterSignalCallback`, on the path where nothing fails. -/
def launchTrace (pkg : Packages) (ctx : Context) (serviceTypes : List String) : List Event :=
  [.makeChan (2 + serviceTypes.length), .bootstrap (pkg.ParseFlagsNode ctx), .go .nodeWait] ++
    (startServices pkg ctx serviceTypes).1 ++ [.registerSignalCallback]

/-- The error channel once every producer that gets to write has written. -/
def errorChannel (pkg : Packages) (w : World) (ctx : Context) (serviceTypes : List String) :
    Chan :=
  (writes w (producers (launchTrace pkg ctx serviceTypes))).foldl Chan.send
    (Chan.make (2 + serviceTypes.length))

/-- The value of `<-errorChannel` in `runServices`, `none` when the receive blocks for
ever. -/
def firstReceived (pkg : Packages) (w : World) (ctx : Context) (serviceTypes : List String) :
    Option Error :=
  (errorChannel pkg w ctx serviceTypes).receive.1

/-- The function `runServices`. -/
def runServices (pkg : Packages) (w : World) (ctx : Context) (licenseCommandName : String)
    (serviceTypes : List String) : Run :=
  if !ctx.Bool agreedTermsConditionsFlag.Name then
    { trace := printTermWarning pkg licenseCommandName ++ [.exit 2], result := .exited 2 }
  else
    match w.Bootstrap (pkg.ParseFlagsNode ctx) with
    | some err =>
      { trace := [.makeChan (2 + serviceTypes.length), .bootstrap (pkg.ParseFlagsNode ctx)],
        result := .returned (some err) }
    | none =>
      match (startServices pkg ctx serviceTypes).2 with
      | some err =>
        { trace := [.makeChan (2 + serviceTypes.length), .bootstrap (pkg.ParseFlagsNode ctx),
            .go .nodeWait] ++ (startServices pkg ctx serviceTypes).1,
          result := .returned (some err) }
      | none =>
        match firstReceived pkg w ctx serviceTypes with
        | none =>
          { trace := launchTrace pkg ctx serviceTypes ++ [.receive], result := .blocked }
        | some err =>
          if err = some GoError.ErrorLocation then
            { trace := launchTrace pkg ctx serviceTypes ++ [.receive] ++
                printLocationWarning pkg "myst",
              result := .returned none }
          else
            { trace := launchTrace pkg ctx serviceTypes ++ [.receive],
              result := .returned err }

/-! ## The command tree -/

/-- The struct `cli.Command`, with the fields this file sets. `Action` and `After` are the
closures of the source; `none` is the nil function of the zero value. `Flags` lists the
names of the registered flags. -/
inductive Command where
  | mk (Name Usage ArgsUsage : String) (Subcommands : List Command) (Flags : List String)
      (Action : Option (Packages → World → Context → Run)) (After : Option (World → Error))

/-- The field `Name`. -/
def Command.Name : Command → String
  | .mk name _ _ _ _ _ _ => name

/-- The field `Usage`. -/
def Command.Usage : Command → String
  | .mk _ usage _ _ _ _ _ => usage

/-- The field `Subcommands`. -/
def Command.Subcommands : Command → List Command
  | .mk _ _ _ subcommands _ _ _ => subcommands

/-- The field `Flags`. -/
def Command.Flags : Command → List String
  | .mk _ _ _ _ flags _ _ => flags

/-- The field `Action`. -/
def Command.Action : Command → Option (Packages → World → Context → Run)
  | .mk _ _ _ _ _ action _ => action

/-- The field `After`. -/
def Command.After : Command → Option (World → Error)
  | .mk _ _ _ _ _ _ after => after

/-- The zero value of `cli.Command`. -/
def Command.zero : Command :=
  .mk "" "" "" [] [] none none

/-- The function `registerFlags`. -/
def registerFlags (pkg : Packages) (flags : List String) : List String :=
  (flags ++ [agreedTermsConditionsFlag.Name, identityFlag.Name, identityPassphraseFlag.Name])
    ++ pkg.openvpnFlags

/-- The function `getSubcommandForType`. -/
def getSubcommandForType (pkg : Packages) (licenseCommandName : String) (serviceType : String) :
    Command :=
  .mk serviceType
    ("Starts and publishes only " ++ serviceType ++ " service on Mysterium Network")
    ""
    []
    (registerFlags pkg [])
    (some (fun pkg w ctx => runServices pkg w ctx licenseCommandName [serviceType]))
    (some (fun w => w.Shutdown))

/-- The function `getSubcommands`: `res` starts as `make([]cli.Command, len(serviceTypes))`,
a slice of that many zero commands, and the loop appends one command per service type. -/
def getSubcommands (pkg : Packages) (licenseCommandName : String) (serviceTypes : List String) :
    List Command :=
  serviceTypes.foldl
    (fun res serviceType => res ++ [getSubcommandForType pkg licenseCommandName serviceType])
    (List.replicate serviceTypes.length Command.zero)

/-- The function `NewCommand`. -/
def NewCommand (pkg : Packages) (licenseCommandName : String) : Command :=
  .mk serviceCommandName
    "Starts and publishes services on Mysterium Network"
    " "
    (getSubcommands pkg licenseCommandName ["openvpn", "wireguard", "noop"])
    (registerFlags pkg [])
    (some (fun pkg w ctx =>
      runServices pkg w ctx licenseCommandName ["openvpn", "wireguard", "noop"]))
    (some (fun w => w.Shutdown))

end ServiceCommand

/-! # The concurrent random source (`utils/random`) -/

namespace Random

/-- The interface `rand.Source` over a state of type `σ`: `Seed` and `Int63`, and `Uint64`
when the value also implements `rand.Source64`. A method returns its result and the next
state. -/
structure Source (σ : Type) where
  Seed : Int → σ → σ
  Int63 : σ → Int × σ
  Uint64 : Option (σ → Nat × σ)

/-- The conversion `uint64(x)` of an `int64`. -/
def toUint64 (x : Int) : Nat :=
  (x % 2 ^ 64).toNat

/-- The type `mockRandomSource` of the test: `Seed` stores the seed, `Int63` returns it. -/
def mockRandomSource : Source Int :=
  { Seed := fun seed _ => seed
    Int63 := fun s => (s, s)
    Uint64 := none }

/-- The type `mockRandomSource64` of the test: as `mockRandomSource`, with `Uint64`. -/
def mockRandomSource64 : Source Int :=
  { Seed := fun seed _ => seed
    Int63 := fun s => (s, s)
    Uint64 := some (fun s => (toUint64 s, s)) }

/-- The state of a wrapper: the state of the wrapped source and whether the lock is held. -/
structure Guarded (σ : Type) where
  locked : Bool
  src : σ

/-- Run `f` on the wrapped state under the lock: the lock is taken, `f` runs, the lock is
released. `none` when the lock is already held (the caller waits). -/
def Guarded.withLock {σ α : Type} (g : Guarded σ) (f : σ → α × σ) : Option (α × Guarded σ) :=
  if g.locked then none
  else some ((f g.src).1, { locked := false, src := (f g.src).2 })

/-- Modelled from the spec: the wrapper `NewConcurrentRandomSource` returns, whose source
file is not among the source files. By the spec it wraps the base capability (`Seed`,
`Int63`), exposes the richer capability (`Uint64`) only when the wrapped instance has it,
and puts a mutual-exclusion guard around all access. -/
structure ConcurrentSource (σ : Type) where
  Seed : Int → Guarded σ → Option (Guarded σ)
  Int63 : Guarded σ → Option (Int × Guarded σ)
  Uint64 : Option (Guarded σ → Option (Nat × Guarded σ))

/-- Modelled from the spec: the constructor `NewConcurrentRandomSource`, whose source file is
not among the source files: every method takes the lock and calls the same method of the
wrapped source; `Uint64` is there exactly when the wrapped source has it. -/
def NewConcurrentRandomSource {σ : Type} (src : Source σ) : ConcurrentSource σ :=
  { Seed := fun seed g => (g.withLock (fun s => ((), src.Seed seed s))).map Prod.snd
    Int63 := fun g => g.withLock src.Int63
    Uint64 := src.Uint64.map (fun uint64 => fun g => g.withLock uint64) }

/-- A wrapper state around a source state, lock free. -/
def Guarded.new {σ : Type} (s : σ) : Guarded σ :=
  { locked := false, src := s }

end Random

/-! # Sample inputs and auxiliary definitions -/

namespace ServiceCommand

/-- The names `parseFlagsByServiceType` knows, in the order of its `switch`. -/
def Registry : List String :=
  [service_noop.ServiceType, service_openvpn.ServiceType, service_wireguard.ServiceType]

/-- The goroutines a trace has started, in the order of their start. -/
def tasks : List Event → List Task
  | [] => []
  | .go t :: es => t :: tasks es
  | _ :: es => tasks es

/-- The texts a trace has written to standard output, in order. -/
def output : List Event → List String
  | [] => []
  | .stdout text :: es => text :: output es
  | _ :: es => output es

/-- What the loop of `runServices` does for one registered service type. -/
def startOne (pkg : Packages) (ctx : Context) (serviceType : String) : List Event :=
  [.parseFlags serviceType,
    .go (.startService serviceType (parseFlagsByServiceType pkg ctx serviceType).1)]

/-- Sample values for the constants and functions of the other packages. -/
def samplePackages : Packages :=
  { LocationCountryFlagName := "location.country"
    LicenseWarrantyFlagName := "warranty"
    LicenseConditionsFlagName := "conditions"
    VersionAsSummary := fun s => s
    LicenseCopyright := fun a b => a ++ b
    ParseFlagsNode := fun _ => "node"
    openvpnParseFlags := fun _ => "openvpn-options"
    openvpnFlags := ["openvpn.port"]
    Quote := fun s => "\"" ++ s ++ "\"" }

/-- A sample command line: terms agreed, an identity and its passphrase given. -/
def sampleContext : Context :=
  { Bool := fun name => name == "agreed-terms-and-conditions"
    String := fun name =>
      if name == "identity" then "0x1" else if name == "identity.passphrase" then "secret"
      else "" }

/-- A sample command line without the agreement to the terms. -/
def sampleContextNoTerms : Context :=
  { Bool := fun _ => false
    String := fun _ => "" }

/-- A sample world: Bootstrap succeeds, the node never stops, the noop service fails with
`ErrorLocation`, teardown fails, an interrupt arrives, and the producer started second is
the first to write. -/
def sampleWorld : World :=
  { Bootstrap := fun _ => none
    Wait := none
    StartServiceByType := fun serviceType _ =>
      if serviceType == "noop" then some (some GoError.ErrorLocation) else none
    Shutdown := some (GoError.foreign 7)
    interrupt := true
    order := [1, 0, 0] }

/-- A sample world in which the node is the first to stop, with a failure of its own. -/
def sampleWorldNodeFails : World :=
  { Bootstrap := fun _ => none
    Wait := some (some (GoError.foreign 3))
    StartServiceByType := fun _ _ => some none
    Shutdown := none
    interrupt := true
    order := [0, 0, 0] }

/-- A sample world in which the node runs on and every service stops with a result of its
own: openvpn fails, wireguard stops cleanly, noop fails to detect the location; openvpn,
started second, is the first to write and every other producer writes after it. -/
def sampleWorldServicesStop : World :=
  { Bootstrap := fun _ => none
    Wait := none
    StartServiceByType := fun serviceType _ =>
      if serviceType == "openvpn" then some (some (GoError.foreign 11))
      else if serviceType == "wireguard" then some none
      else if serviceType == "noop" then some (some GoError.ErrorLocation)
      else none
    Shutdown := none
    interrupt := true
    order := [1, 0, 0, 0, 0] }

end ServiceCommand

/-! # Properties -/

namespace ServiceCommand

/-! ## Option parsing -/

theorem mem_Registry (t : String) :
    t ∈ Registry ↔ t = "noop" ∨ t = "openvpn" ∨ t = "wireguard" := by
  simp [Registry, service_noop.ServiceType, service_openvpn.ServiceType,
    service_wireguard.ServiceType]

theorem parse_registered (pkg : Packages) (ctx : Context) (t : String) (h : t ∈ Registry) :
    parseFlagsByServiceType pkg ctx t =
      ({ Identity := ctx.String "identity", Passphrase := ctx.String "identity.passphrase",
         Type_ := t, Options_ := if t = "openvpn" then some (pkg.openvpnParseFlags ctx)
           else none }, none) := by
  rcases (mem_Registry t).1 h with h | h | h <;> subst h <;>
    simp [parseFlagsByServiceType, parseNoopFlags, parseOpenvpnFlags, parseWireguardFlags,
      service_noop.ServiceType, service_openvpn.ServiceType, service_wireguard.ServiceType,
      identityFlag.Name, identityPassphraseFlag.Name]

theorem parse_unregistered (pkg : Packages) (ctx : Context) (t : String) (h : t ∉ Registry) :
    parseFlagsByServiceType pkg ctx t =
      (Options.zero,
        some (GoError.errorString ("Unknown service type: " ++ pkg.Quote t))) := by
  rw [mem_Registry] at h
  simp only [not_or] at h
  obtain ⟨h1, h2, h3⟩ := h
  simp [parseFlagsByServiceType, service_noop.ServiceType, service_openvpn.ServiceType,
    service_wireguard.ServiceType, h1, h2, h3]

theorem parse_error_iff (pkg : Packages) (ctx : Context) (t : String) :
    (parseFlagsByServiceType pkg ctx t).2 = none ↔ t ∈ Registry := by
  by_cases h : t ∈ Registry
  · simp [parse_registered pkg ctx t h, h]
  · simp [parse_unregistered pkg ctx t h, h]

/-! ## The loop over the service types -/

theorem startServices_registered (pkg : Packages) (ctx : Context) (types : List String)
    (h : ∀ t ∈ types, t ∈ Registry) :
    startServices pkg ctx types = (types.flatMap (startOne pkg ctx), none) := by
  induction types with
  | nil => rfl
  | cons t ts ih =>
    have ht : t ∈ Registry := h t (List.mem_cons_self _ _)
    have hts : ∀ x ∈ ts, x ∈ Registry := fun x hx => h x (List.mem_cons_of_mem _ hx)
    have hp := parse_registered pkg ctx t ht
    simp only [startServices, hp, ih hts, List.flatMap_cons, startOne]
    rfl

theorem startServices_unknown (pkg : Packages) (ctx : Context) (known : List String)
    (unknown : String) (rest : List String) (hknown : ∀ t ∈ known, t ∈ Registry)
    (hunknown : unknown ∉ Registry) :
    startServices pkg ctx (known ++ unknown :: rest) =
      (known.flatMap (startOne pkg ctx) ++ [.parseFlags unknown],
        some (GoError.errorString ("Unknown service type: " ++ pkg.Quote unknown))) := by
  induction known with
  | nil =>
    simp [startServices, parse_unregistered pkg ctx unknown hunknown]
  | cons t ts ih =>
    have ht : t ∈ Registry := hknown t (List.mem_cons_self _ _)
    have hts : ∀ x ∈ ts, x ∈ Registry := fun x hx => hknown x (List.mem_cons_of_mem _ hx)
    have hp := parse_registered pkg ctx t ht
    have ih2 := ih hts
    rw [List.cons_append]
    simp only [startServices, hp, ih2, List.flatMap_cons, startOne]
    rfl

end ServiceCommand

namespace ServiceCommand

/-! ## Producers and the schedule -/

theorem producers_append (xs ys : List Event) :
    producers (xs ++ ys) = producers xs ++ producers ys := by
  induction xs with
  | nil => rfl
  | cons e es ih => cases e <;> simp [producers, ih]

theorem tasks_append (xs ys : List Event) : tasks (xs ++ ys) = tasks xs ++ tasks ys := by
  induction xs with
  | nil => rfl
  | cons e es ih => cases e <;> simp [tasks, ih]

theorem output_append (xs ys : List Event) : output (xs ++ ys) = output xs ++ output ys := by
  induction xs with
  | nil => rfl
  | cons e es ih => cases e <;> simp [output, ih]

theorem producers_startServices_length (pkg : Packages) (ctx : Context) (types : List String) :
    (producers (startServices pkg ctx types).1).length ≤ types.length := by
  induction types with
  | nil => simp [startServices, producers]
  | cons t ts ih =>
    rcases hp : parseFlagsByServiceType pkg ctx t with ⟨o, _ | err⟩
    · simp only [startServices, hp, producers, List.length_cons]
      omega
    · simp [startServices, hp, producers]

theorem producers_flatMap_startOne (pkg : Packages) (ctx : Context) (types : List String) :
    producers (types.flatMap (startOne pkg ctx)) =
      types.map (fun t => .task (.startService t (parseFlagsByServiceType pkg ctx t).1)) := by
  induction types with
  | nil => rfl
  | cons t ts ih =>
    rw [List.flatMap_cons, producers_append, ih]
    rfl

theorem tasks_flatMap_startOne (pkg : Packages) (ctx : Context) (types : List String) :
    tasks (types.flatMap (startOne pkg ctx)) =
      types.map (fun t => .startService t (parseFlagsByServiceType pkg ctx t).1) := by
  induction types with
  | nil => rfl
  | cons t ts ih =>
    rw [List.flatMap_cons, tasks_append, ih]
    rfl

theorem output_flatMap_startOne (pkg : Packages) (ctx : Context) (types : List String) :
    output (types.flatMap (startOne pkg ctx)) = [] := by
  induction types with
  | nil => rfl
  | cons t ts ih =>
    rw [List.flatMap_cons, output_append, ih]
    rfl

theorem scheduled_length_le (order : List Nat) (ps : List Producer) :
    (scheduled order ps).length ≤ ps.length := by
  induction order generalizing ps with
  | nil => cases ps <;> simp [scheduled]
  | cons i is ih =>
    cases ps with
    | nil => simp [scheduled]
    | cons p ps =>
      have hlt : i % (p :: ps).length < (p :: ps).length :=
        Nat.mod_lt _ (by simp)
      have hlen := ih ((p :: ps).eraseIdx (i % (p :: ps).length))
      rw [List.length_eraseIdx, if_pos hlt] at hlen
      simp only [scheduled, List.length_cons] at hlen ⊢
      omega

theorem writes_length_le (w : World) (ps : List Producer) :
    (writes w ps).length ≤ ps.length :=
  le_trans (List.length_filterMap_le _ _) (scheduled_length_le w.order ps)

/-! ## The channel -/

theorem Chan.foldl_send (vs : List Error) (c : Chan)
    (hroom : c.buffer.length + vs.length ≤ c.capacity) :
    vs.foldl Chan.send c = { c with buffer := c.buffer ++ vs } := by
  induction vs generalizing c with
  | nil => simp
  | cons v vs ih =>
    have hlt : c.buffer.length < c.capacity := by
      simp only [List.length_cons] at hroom
      omega
    have hsend : c.send v = { c with buffer := c.buffer ++ [v] } := by
      simp [Chan.send, hlt]
    rw [List.foldl_cons, hsend, ih]
    · simp
    · simp only [List.length_append, List.length_cons, List.length_nil] at hroom ⊢
      omega

theorem Chan.receive_make (capacity : Nat) (vs : List Error) :
    ({ Chan.make capacity with buffer := vs } : Chan).receive.1 = vs.head? := by
  cases vs <;> simp [Chan.receive, Chan.make]

theorem Chan.run_no_stall (ops : List ChanOp) (c : Chan) (hw : c.waiting = [])
    (hs : c.stalls = 0)
    (hroom : c.buffer.length + (ops.filterMap ChanOp.sent).length ≤ c.capacity) :
    (c.run ops).stalls = 0 ∧ (c.run ops).waiting = [] := by
  induction ops generalizing c with
  | nil => exact ⟨hs, hw⟩
  | cons op ops ih =>
    cases op with
    | send v =>
      simp only [List.filterMap_cons, ChanOp.sent, List.length_cons] at hroom
      have hlt : c.buffer.length < c.capacity := by omega
      have hsend : c.send v = { c with buffer := c.buffer ++ [v] } := by
        simp [Chan.send, hlt]
      simp only [Chan.run, hsend]
      apply ih
      · exact hw
      · exact hs
      · simp only [List.length_append, List.length_cons, List.length_nil]
        omega
    | receive =>
      simp only [List.filterMap_cons, ChanOp.sent] at hroom
      simp only [Chan.run]
      rcases hb : c.buffer with _ | ⟨v, vs⟩
      · have hrec : c.receive.2 = c := by simp [Chan.receive, hb, hw]
        rw [hrec]
        exact ih c hw hs (by rw [hb]; simpa [hb] using hroom)
      · have hrec : c.receive.2 = { c with buffer := vs } := by
          simp [Chan.receive, hb, hw]
        rw [hrec]
        apply ih
        · exact hw
        · exact hs
        · rw [hb] at hroom
          simp only [List.length_cons] at hroom
          show vs.length + _ ≤ c.capacity
          omega

end ServiceCommand

namespace ServiceCommand

/-! ## The run of `runServices` -/

theorem producers_launchTrace_length (pkg : Packages) (ctx : Context) (types : List String) :
    (producers (launchTrace pkg ctx types)).length ≤ 2 + types.length := by
  have h := producers_startServices_length pkg ctx types
  rw [launchTrace, producers_append, producers_append]
  simp only [producers, List.length_append, List.length_cons, List.length_nil]
  omega

theorem errorChannel_eq (pkg : Packages) (w : World) (ctx : Context) (types : List String) :
    errorChannel pkg w ctx types =
      { Chan.make (2 + types.length) with
        buffer := writes w (producers (launchTrace pkg ctx types)) } := by
  have hlen := le_trans (writes_length_le w (producers (launchTrace pkg ctx types)))
    (producers_launchTrace_length pkg ctx types)
  rw [errorChannel, Chan.foldl_send]
  · simp [Chan.make]
  · simpa [Chan.make] using hlen

/-- The value `runServices` receives is the first value written to the channel. -/
theorem firstReceived_eq_head (pkg : Packages) (w : World) (ctx : Context)
    (types : List String) :
    firstReceived pkg w ctx types =
      (writes w (producers (launchTrace pkg ctx types))).head? := by
  rw [firstReceived, errorChannel_eq, Chan.receive_make]

theorem runServices_started (pkg : Packages) (w : World) (ctx : Context) (lic : String)
    (types : List String) (hterms : ctx.Bool "agreed-terms-and-conditions" = true)
    (hboot : w.Bootstrap (pkg.ParseFlagsNode ctx) = none)
    (hparse : ∀ t ∈ types, (parseFlagsByServiceType pkg ctx t).2 = none) :
    runServices pkg w ctx lic types =
      match firstReceived pkg w ctx types with
      | none => { trace := launchTrace pkg ctx types ++ [.receive], result := .blocked }
      | some err =>
        if err = some GoError.ErrorLocation then
          { trace := launchTrace pkg ctx types ++ [.receive] ++
              printLocationWarning pkg "myst",
            result := .returned none }
        else
          { trace := launchTrace pkg ctx types ++ [.receive], result := .returned err } := by
  have hreg : ∀ t ∈ types, t ∈ Registry := fun t ht =>
    (parse_error_iff pkg ctx t).1 (hparse t ht)
  have hstart := startServices_registered pkg ctx types hreg
  have hterms2 : ctx.Bool agreedTermsConditionsFlag.Name = true := hterms
  simp only [runServices, hterms2, hboot, hstart]
  rfl

/-- Claim C1: with the terms agreed, Bootstrap succeeding and every requested type parsing,
the result of `runServices` is decided by the first value `v` received from the error
channel alone: `nil` gives `nil`, `service.ErrorLocation` gives `nil`, any other error is
returned unchanged; and a world whose producers write the same first value (whatever the
later writes are) gives the same result. -/
theorem runServices_result_of_first_value (pkg : Packages) (w : World) (ctx : Context)
    (lic : String) (types : List String) (v : Error)
    (hterms : ctx.Bool "agreed-terms-and-conditions" = true)
    (hboot : w.Bootstrap (pkg.ParseFlagsNode ctx) = none)
    (hparse : ∀ t ∈ types, (parseFlagsByServiceType pkg ctx t).2 = none)
    (hfirst : firstReceived pkg w ctx types = some v) :
    (v = none → (runServices pkg w ctx lic types).result = .returned none) ∧
    (v = some GoError.ErrorLocation →
      (runServices pkg w ctx lic types).result = .returned none) ∧
    (∀ e : GoError, v = some e → e ≠ GoError.ErrorLocation →
      (runServices pkg w ctx lic types).result = .returned (some e)) ∧
    (∀ w2 : World, w2.Bootstrap (pkg.ParseFlagsNode ctx) = none →
      (writes w2 (producers (launchTrace pkg ctx types))).head? =
        (writes w (producers (launchTrace pkg ctx types))).head? →
      (runServices pkg w2 ctx lic types).result =
        (runServices pkg w ctx lic types).result) := by
  have hrun := runServices_started pkg w ctx lic types hterms hboot hparse
  refine ⟨?_, ?_, ?_, ?_⟩
  · intro hv
    subst hv
    rw [hrun, hfirst]
    simp
  · intro hv
    subst hv
    rw [hrun, hfirst]
    simp
  · intro e hv hne
    subst hv
    rw [hrun, hfirst]
    simp [hne]
  · intro w2 hboot2 hhead
    have hrun2 := runServices_started pkg w2 ctx lic types hterms hboot2 hparse
    have hfirst2 : firstReceived pkg w2 ctx types = firstReceived pkg w ctx types := by
      rw [firstReceived_eq_head, firstReceived_eq_head, hhead]
    rw [hrun2, hrun, hfirst2, hfirst]

/-- Claim C1, at a sample input: the node is the first to report, with a failure of its
own, and that failure is the result. -/
theorem runServices_result_of_first_value_witness :
    firstReceived samplePackages sampleWorldNodeFails sampleContext ["noop"] =
        some (some (GoError.foreign 3)) ∧
      (runServices samplePackages sampleWorldNodeFails sampleContext "license" ["noop"]).result =
        .returned (some (GoError.foreign 3)) :=
  ⟨by decide,
    (runServices_result_of_first_value samplePackages sampleWorldNodeFails sampleContext
      "license" ["noop"] (some (GoError.foreign 3)) (by decide) (by decide) (by decide)
      (by decide)).2.2.1 (GoError.foreign 3) rfl (by decide)⟩

end ServiceCommand

namespace ServiceCommand

theorem mem_startServices (pkg : Packages) (ctx : Context) (types : List String) (e : Event)
    (h : e ∈ (startServices pkg ctx types).1) :
    (∃ t, e = .parseFlags t) ∨ (∃ t o, e = .go (.startService t o)) := by
  induction types with
  | nil => simp [startServices] at h
  | cons t ts ih =>
    rcases hp : parseFlagsByServiceType pkg ctx t with ⟨o, _ | err⟩
    · simp only [startServices, hp, List.mem_cons] at h
      rcases h with h | h | h
      · exact Or.inl ⟨t, h⟩
      · exact Or.inr ⟨t, o, h⟩
      · exact ih h
    · simp only [startServices, hp, List.mem_singleton] at h
      exact Or.inl ⟨t, h⟩

theorem runServices_producers_length (pkg : Packages) (w : World) (ctx : Context)
    (lic : String) (types : List String) :
    (producers (runServices pkg w ctx lic types).trace).length ≤ types.length + 2 := by
  have hloop := producers_startServices_length pkg ctx types
  have hlaunch := producers_launchTrace_length pkg ctx types
  unfold runServices
  split
  · simp [printTermWarning, producers]
  · split
    · simp [producers]
    · split
      · rw [producers_append]
        simp only [producers, List.length_append, List.length_cons, List.length_nil]
        omega
      · have hrec : producers [Event.receive] = [] := rfl
        have hprint : producers (printLocationWarning pkg "myst") = [] := rfl
        split
        · rw [producers_append, hrec, List.append_nil]
          omega
        · split
          · rw [producers_append, producers_append, hrec, hprint, List.append_nil,
              List.append_nil]
            omega
          · rw [producers_append, hrec, List.append_nil]
            omega

theorem runServices_makeChan (pkg : Packages) (w : World) (ctx : Context) (lic : String)
    (types : List String) (capacity : Nat)
    (h : Event.makeChan capacity ∈ (runServices pkg w ctx lic types).trace) :
    capacity = types.length + 2 := by
  have hloop : Event.makeChan capacity ∉ (startServices pkg ctx types).1 := by
    intro hmem
    rcases mem_startServices pkg ctx types _ hmem with ⟨t, ht⟩ | ⟨t, o, ht⟩ <;> cases ht
  unfold runServices at h
  split at h
  · simp [printTermWarning] at h
  · split at h
    · simp at h
      omega
    · split at h
      · simp [hloop] at h
        omega
      · split at h
        · simp [launchTrace, hloop] at h
          omega
        · split at h
          · simp [launchTrace, hloop, printLocationWarning] at h
            omega
          · simp [launchTrace, hloop] at h
            omega

/-- Claim C5: the channel `runServices` creates has capacity `len(serviceTypes) + 2`; on
every path of `runServices` the producers started (goroutines and the signal callback) are
at most that many; so under any interleaving of their writes, one per producer at most,
with any number of reads of the consumer, no write finds the buffer full. -/
theorem errorChannel_never_blocks_a_producer (pkg : Packages) (w : World) (ctx : Context)
    (lic : String) (types : List String) :
    (∀ capacity, Event.makeChan capacity ∈ (runServices pkg w ctx lic types).trace →
      capacity = types.length + 2) ∧
    (producers (runServices pkg w ctx lic types).trace).length ≤ types.length + 2 ∧
    (∀ ops : List ChanOp,
      (ops.filterMap ChanOp.sent).length ≤
        (producers (runServices pkg w ctx lic types).trace).length →
      ((Chan.make (types.length + 2)).run ops).stalls = 0 ∧
        ((Chan.make (types.length + 2)).run ops).waiting = []) := by
  refine ⟨fun capacity h => runServices_makeChan pkg w ctx lic types capacity h,
    runServices_producers_length pkg w ctx lic types, ?_⟩
  intro ops hops
  have hlen := runServices_producers_length pkg w ctx lic types
  apply Chan.run_no_stall
  · rfl
  · rfl
  · simp only [Chan.make, List.length_nil]
    omega

/-- Claim C5, at a sample input: three services, every producer writes and the consumer
reads once in between. -/
theorem errorChannel_never_blocks_a_producer_witness :
    Event.makeChan 5 ∈ (runServices samplePackages sampleWorld sampleContext "license"
        ["openvpn", "wireguard", "noop"]).trace ∧
      ((Chan.make 5).run [.send none, .send none, .receive, .send none, .send none,
        .send none]).stalls = 0 :=
  ⟨by decide,
    ((errorChannel_never_blocks_a_producer samplePackages sampleWorld sampleContext "license"
      ["openvpn", "wireguard", "noop"]).2.2
      [.send none, .send none, .receive, .send none, .send none, .send none]
      (by decide)).1⟩

/-- Claim C3: without the agreement to the terms `runServices` prints the terms warning
and exits with status 2, for every list of service types. The warning is three lines: the
version summary of the license copyright, built from the two commands that show the
warranty and the conditions, an empty line, and the request to run again with
`--agreed-terms-and-conditions`. Nothing else happens: Bootstrap is not invoked, no channel
is made, no producer is started, no options are parsed and no signal callback is
registered. -/
theorem runServices_terms_not_agreed (pkg : Packages) (w : World) (ctx : Context)
    (lic : String) (types : List String)
    (hterms : ctx.Bool "agreed-terms-and-conditions" = false) :
    (runServices pkg w ctx lic types).result = .exited 2 ∧
    (runServices pkg w ctx lic types).trace = printTermWarning pkg lic ++ [.exit 2] ∧
    (runServices pkg w ctx lic types).trace =
      [.stdout (pkg.VersionAsSummary (pkg.LicenseCopyright
          ("run program with 'myst " ++ lic ++ " --" ++ pkg.LicenseWarrantyFlagName ++
            "' option")
          ("run program with 'myst " ++ lic ++ " --" ++ pkg.LicenseConditionsFlagName ++
            "' option")) ++ "\n"),
        .stdout "\n",
        .stdout "If you agree with these Terms & Conditions, run program again with '--agreed-terms-and-conditions' flag\n",
        .exit 2] ∧
    output (runServices pkg w ctx lic types).trace =
      [pkg.VersionAsSummary (pkg.LicenseCopyright
          ("run program with 'myst " ++ lic ++ " --" ++ pkg.LicenseWarrantyFlagName ++
            "' option")
          ("run program with 'myst " ++ lic ++ " --" ++ pkg.LicenseConditionsFlagName ++
            "' option")) ++ "\n",
        "\n",
        "If you agree with these Terms & Conditions, run program again with '--agreed-terms-and-conditions' flag\n"] ∧
    (∀ o, Event.bootstrap o ∉ (runServices pkg w ctx lic types).trace) ∧
    (∀ t, Event.go t ∉ (runServices pkg w ctx lic types).trace) ∧
    (∀ t, Event.parseFlags t ∉ (runServices pkg w ctx lic types).trace) ∧
    (∀ capacity, Event.makeChan capacity ∉ (runServices pkg w ctx lic types).trace) ∧
    Event.registerSignalCallback ∉ (runServices pkg w ctx lic types).trace ∧
    Event.receive ∉ (runServices pkg w ctx lic types).trace ∧
    producers (runServices pkg w ctx lic types).trace = [] := by
  have hterms2 : ctx.Bool agreedTermsConditionsFlag.Name = false := hterms
  have hrun : runServices pkg w ctx lic types =
      { trace := printTermWarning pkg lic ++ [.exit 2], result := .exited 2 } := by
    simp [runServices, hterms2]
  have hline : ("If you agree with these Terms & Conditions, run program again with " ++
      "'--agreed-terms-and-conditions' flag" ++ "\n" : String) =
      "If you agree with these Terms & Conditions, run program again with '--agreed-terms-and-conditions' flag\n" := by
    decide
  rw [hrun]
  simp [printTermWarning, producers, output, hline]

/-- Claim C3, at a sample input: all three services requested, terms not agreed. -/
theorem runServices_terms_not_agreed_witness :
    (runServices samplePackages sampleWorld sampleContextNoTerms "license"
        ["openvpn", "wireguard", "noop"]).result = .exited 2 ∧
      output (runServices samplePackages sampleWorld sampleContextNoTerms "license"
        ["openvpn", "wireguard", "noop"]).trace =
        ["run program with 'myst license --warranty' option" ++
            "run program with 'myst license --conditions' option\n",
          "\n",
          "If you agree with these Terms & Conditions, run program again with '--agreed-terms-and-conditions' flag\n"] :=
  ⟨(runServices_terms_not_agreed samplePackages sampleWorld sampleContextNoTerms "license"
      ["openvpn", "wireguard", "noop"] rfl).1,
    by decide⟩

/-- Claim C4: `parseFlagsByServiceType` fails exactly on the names other than `noop`,
`openvpn` and `wireguard`. For these three it returns options of that type, filled from the
identity flags, with a nil error; for every other string it returns the zero `Options` and
the error whose text is `Unknown service type: ` followed by the quoted name. -/
theorem parseFlagsByServiceType_fails_iff_unregistered (pkg : Packages) (ctx : Context)
    (serviceType : String) :
    ((parseFlagsByServiceType pkg ctx serviceType).2 ≠ none ↔
      ¬ (serviceType = "noop" ∨ serviceType = "openvpn" ∨ serviceType = "wireguard")) ∧
    ((serviceType = "noop" ∨ serviceType = "openvpn" ∨ serviceType = "wireguard") →
      (parseFlagsByServiceType pkg ctx serviceType).2 = none ∧
      (parseFlagsByServiceType pkg ctx serviceType).1.Type_ = serviceType ∧
      (parseFlagsByServiceType pkg ctx serviceType).1.Identity = ctx.String "identity" ∧
      (parseFlagsByServiceType pkg ctx serviceType).1.Passphrase =
        ctx.String "identity.passphrase") ∧
    (¬ (serviceType = "noop" ∨ serviceType = "openvpn" ∨ serviceType = "wireguard") →
      parseFlagsByServiceType pkg ctx serviceType =
        (Options.zero,
          some (GoError.errorString ("Unknown service type: " ++ pkg.Quote serviceType)))) := by
  refine ⟨?_, ?_, ?_⟩
  · rw [← mem_Registry, Ne, parse_error_iff]
  · intro h
    rw [parse_registered pkg ctx serviceType ((mem_Registry _).2 h)]
    simp
  · intro h
    exact parse_unregistered pkg ctx serviceType (fun hmem => h ((mem_Registry _).1 hmem))

/-- Claim C4, at a sample input: the empty string is not a service type. -/
theorem parseFlagsByServiceType_fails_iff_unregistered_witness :
    parseFlagsByServiceType samplePackages sampleContext "" =
      (Options.zero, some (GoError.errorString "Unknown service type: \"\"")) :=
  (parseFlagsByServiceType_fails_iff_unregistered samplePackages sampleContext "").2.2
    (by decide)

end ServiceCommand

namespace ServiceCommand

/-- Claim C2, refuted as stated: with the terms agreed and the list `["noop", "bogus"]`,
whose second name is not registered, `runServices` does return the unknown-service-type
error, yet by then Bootstrap has been invoked, the runtime-wait task has been started and
so has the task of the noop service. -/
theorem unknown_type_reached_after_bootstrap :
    "bogus" ∉ Registry ∧
    sampleContext.Bool "agreed-terms-and-conditions" = true ∧
    (runServices samplePackages sampleWorld sampleContext "license" ["noop", "bogus"]).result =
      .returned (some (GoError.errorString "Unknown service type: \"bogus\"")) ∧
    Event.bootstrap "node" ∈
      (runServices samplePackages sampleWorld sampleContext "license" ["noop", "bogus"]).trace ∧
    Event.go .nodeWait ∈
      (runServices samplePackages sampleWorld sampleContext "license" ["noop", "bogus"]).trace ∧
    Event.go (.startService "noop"
        { Identity := "0x1", Passphrase := "secret", Type_ := "noop", Options_ := none }) ∈
      (runServices samplePackages sampleWorld sampleContext "license" ["noop", "bogus"]).trace := by
  decide

/-- Claim C2, amended: with the terms agreed and Bootstrap succeeding, a list whose first
unregistered name is `unknown`, after the registered names `known`, makes `runServices`
return the unknown-service-type error of `unknown`. Before that it has made the channel,
invoked Bootstrap, started the runtime-wait task and, for each name of `known` in turn,
parsed its options and started its task; nothing is started for `unknown` or for a name
after it, no signal callback is registered and nothing is received. -/
theorem runServices_unknown_type (pkg : Packages) (w : World) (ctx : Context) (lic : String)
    (known : List String) (unknown : String) (rest : List String)
    (hterms : ctx.Bool "agreed-terms-and-conditions" = true)
    (hboot : w.Bootstrap (pkg.ParseFlagsNode ctx) = none)
    (hknown : ∀ t ∈ known, t ∈ Registry) (hunknown : unknown ∉ Registry) :
    runServices pkg w ctx lic (known ++ unknown :: rest) =
      { trace :=
          [.makeChan (2 + (known ++ unknown :: rest).length),
            .bootstrap (pkg.ParseFlagsNode ctx), .go .nodeWait] ++
          known.flatMap (fun t =>
            [.parseFlags t, .go (.startService t (parseFlagsByServiceType pkg ctx t).1)]) ++
          [.parseFlags unknown],
        result :=
          .returned (some (GoError.errorString
            ("Unknown service type: " ++ pkg.Quote unknown))) } := by
  have hterms2 : ctx.Bool agreedTermsConditionsFlag.Name = true := hterms
  have hstart := startServices_unknown pkg ctx known unknown rest hknown hunknown
  simp only [runServices, hterms2, hboot, hstart]
  rfl

/-- Claim C2 as amended, at a sample input: `wireguard` is never parsed or started. -/
theorem runServices_unknown_type_witness :
    runServices samplePackages sampleWorld sampleContext "license"
        ["noop", "bogus", "wireguard"] =
      { trace :=
          [.makeChan 5, .bootstrap "node", .go .nodeWait, .parseFlags "noop",
            .go (.startService "noop"
              { Identity := "0x1", Passphrase := "secret", Type_ := "noop",
                Options_ := none }),
            .parseFlags "bogus"],
        result := .returned (some (GoError.errorString "Unknown service type: \"bogus\"")) } :=
  runServices_unknown_type samplePackages sampleWorld sampleContext "license" ["noop"] "bogus"
    ["wireguard"] (by decide) (by decide) (by decide) (by decide)

theorem tasks_runServices_started (pkg : Packages) (w : World) (ctx : Context) (lic : String)
    (types : List String) (hterms : ctx.Bool "agreed-terms-and-conditions" = true)
    (hboot : w.Bootstrap (pkg.ParseFlagsNode ctx) = none)
    (hparse : ∀ t ∈ types, (parseFlagsByServiceType pkg ctx t).2 = none) :
    tasks (runServices pkg w ctx lic types).trace = tasks (launchTrace pkg ctx types) := by
  have hrec : tasks [Event.receive] = [] := rfl
  have hprint : tasks (printLocationWarning pkg "myst") = [] := rfl
  rw [runServices_started pkg w ctx lic types hterms hboot hparse]
  split
  · rw [tasks_append, hrec, List.append_nil]
  · split
    · rw [tasks_append, tasks_append, hrec, hprint, List.append_nil, List.append_nil]
    · rw [tasks_append, hrec, List.append_nil]

theorem producers_runServices_started (pkg : Packages) (w : World) (ctx : Context)
    (lic : String) (types : List String)
    (hterms : ctx.Bool "agreed-terms-and-conditions" = true)
    (hboot : w.Bootstrap (pkg.ParseFlagsNode ctx) = none)
    (hparse : ∀ t ∈ types, (parseFlagsByServiceType pkg ctx t).2 = none) :
    producers (runServices pkg w ctx lic types).trace =
      producers (launchTrace pkg ctx types) := by
  have hrec : producers [Event.receive] = [] := rfl
  have hprint : producers (printLocationWarning pkg "myst") = [] := rfl
  rw [runServices_started pkg w ctx lic types hterms hboot hparse]
  split
  · rw [producers_append, hrec, List.append_nil]
  · split
    · rw [producers_append, producers_append, hrec, hprint, List.append_nil, List.append_nil]
    · rw [producers_append, hrec, List.append_nil]

/-- Claim C8: with the terms agreed, Bootstrap succeeding and only registered types
requested, the goroutines `runServices` starts are, in order, one for `di.Node.Wait()` and,
for each requested type, one for `StartServiceByType` of that type with the options parsed
for that type: its `Type` is the type itself, its `Identity` and `Passphrase` are the values
of the flags `identity` and `identity.passphrase`. They are `len(serviceTypes) + 1` in
number. What each of them writes to the channel is the result of its own call: the first
writes what `di.Node.Wait()` returns, the one of a type writes what `StartServiceByType`
returns for that type and those options. Together with the signal callback they are the
producers of the channel. -/
theorem runServices_starts_one_task_per_service (pkg : Packages) (w : World) (ctx : Context)
    (lic : String) (types : List String)
    (hterms : ctx.Bool "agreed-terms-and-conditions" = true)
    (hboot : w.Bootstrap (pkg.ParseFlagsNode ctx) = none)
    (hreg : ∀ t ∈ types, t = "noop" ∨ t = "openvpn" ∨ t = "wireguard") :
    tasks (runServices pkg w ctx lic types).trace =
      .nodeWait :: types.map (fun t => .startService t
        { Identity := ctx.String "identity", Passphrase := ctx.String "identity.passphrase",
          Type_ := t,
          Options_ := if t = "openvpn" then some (pkg.openvpnParseFlags ctx) else none }) ∧
    (tasks (runServices pkg w ctx lic types).trace).length = types.length + 1 ∧
    (tasks (runServices pkg w ctx lic types).trace).map
        (fun t => Producer.report w (.task t)) =
      w.Wait :: types.map (fun t => w.StartServiceByType t
        { Identity := ctx.String "identity", Passphrase := ctx.String "identity.passphrase",
          Type_ := t,
          Options_ := if t = "openvpn" then some (pkg.openvpnParseFlags ctx) else none }) ∧
    producers (runServices pkg w ctx lic types).trace =
      (tasks (runServices pkg w ctx lic types).trace).map Producer.task ++
        [.signalCallback] := by
  have hreg2 : ∀ t ∈ types, t ∈ Registry := fun t ht => (mem_Registry t).2 (hreg t ht)
  have hparse : ∀ t ∈ types, (parseFlagsByServiceType pkg ctx t).2 = none := fun t ht =>
    (parse_error_iff pkg ctx t).2 (hreg2 t ht)
  have hcongr : types.map (fun t => Task.startService t
        (parseFlagsByServiceType pkg ctx t).1) =
      types.map (fun t => .startService t
        { Identity := ctx.String "identity", Passphrase := ctx.String "identity.passphrase",
          Type_ := t,
          Options_ := if t = "openvpn" then some (pkg.openvpnParseFlags ctx) else none }) := by
    apply List.map_congr_left
    intro t ht
    rw [parse_registered pkg ctx t (hreg2 t ht)]
  have hsig : tasks [Event.registerSignalCallback] = [] := rfl
  have hhead : tasks [Event.makeChan (2 + types.length),
      Event.bootstrap (pkg.ParseFlagsNode ctx), Event.go Task.nodeWait] = [.nodeWait] := rfl
  have htasks : tasks (runServices pkg w ctx lic types).trace =
      .nodeWait :: types.map (fun t => .startService t
        { Identity := ctx.String "identity", Passphrase := ctx.String "identity.passphrase",
          Type_ := t,
          Options_ := if t = "openvpn" then some (pkg.openvpnParseFlags ctx) else none }) := by
    rw [tasks_runServices_started pkg w ctx lic types hterms hboot hparse, launchTrace,
      startServices_registered pkg ctx types hreg2, tasks_append, tasks_append,
      tasks_flatMap_startOne, hsig, hhead, List.append_nil, List.singleton_append, hcongr]
  have hpsig : producers [Event.registerSignalCallback] = [.signalCallback] := rfl
  have hphead : producers [Event.makeChan (2 + types.length),
      Event.bootstrap (pkg.ParseFlagsNode ctx), Event.go Task.nodeWait] =
      [.task .nodeWait] := rfl
  have hproducers : producers (runServices pkg w ctx lic types).trace =
      (tasks (runServices pkg w ctx lic types).trace).map Producer.task ++
        [.signalCallback] := by
    rw [htasks, producers_runServices_started pkg w ctx lic types hterms hboot hparse,
      launchTrace, startServices_registered pkg ctx types hreg2, producers_append,
      producers_append, producers_flatMap_startOne, hpsig, hphead, List.singleton_append,
      List.map_cons, ← hcongr, List.map_map]
    rfl
  refine ⟨htasks, by rw [htasks]; simp, ?_, hproducers⟩
  rw [htasks, List.map_cons, List.map_map]
  rfl

/-- Claim C8, at a sample input: all three services, each stopping with a result of its own
while the node runs on. -/
theorem runServices_starts_one_task_per_service_witness :
    tasks (runServices samplePackages sampleWorldServicesStop sampleContext "license"
        ["openvpn", "wireguard", "noop"]).trace =
      [.nodeWait,
        .startService "openvpn"
          { Identity := "0x1", Passphrase := "secret", Type_ := "openvpn",
            Options_ := some "openvpn-options" },
        .startService "wireguard"
          { Identity := "0x1", Passphrase := "secret", Type_ := "wireguard",
            Options_ := none },
        .startService "noop"
          { Identity := "0x1", Passphrase := "secret", Type_ := "noop", Options_ := none }] ∧
      (tasks (runServices samplePackages sampleWorldServicesStop sampleContext "license"
          ["openvpn", "wireguard", "noop"]).trace).map
          (fun t => Producer.report sampleWorldServicesStop (.task t)) =
        [none, some (some (GoError.foreign 11)), some none,
          some (some GoError.ErrorLocation)] ∧
      (runServices samplePackages sampleWorldServicesStop sampleContext "license"
        ["openvpn", "wireguard", "noop"]).result = .returned (some (GoError.foreign 11)) :=
  ⟨(runServices_starts_one_task_per_service samplePackages sampleWorldServicesStop
      sampleContext "license" ["openvpn", "wireguard", "noop"] (by decide) (by decide)
      (by decide)).1,
    (runServices_starts_one_task_per_service samplePackages sampleWorldServicesStop
      sampleContext "license" ["openvpn", "wireguard", "noop"] (by decide) (by decide)
      (by decide)).2.2.1,
    by decide⟩

theorem output_launchTrace (pkg : Packages) (ctx : Context) (types : List String)
    (hreg : ∀ t ∈ types, t ∈ Registry) : output (launchTrace pkg ctx types) = [] := by
  rw [launchTrace, startServices_registered pkg ctx types hreg, output_append, output_append,
    output_flatMap_startOne]
  rfl

/-- Claim C9: when the first value `runServices` receives is `service.ErrorLocation`, it
returns no error and what it prints is the location warning for `myst` and an empty line,
whatever the world, the schedule and the number of services; and for every executable name
the warning of `printLocationWarning` contains, in quotes, the executable name, the command
name `service` and the name of the location country flag with `=US`. -/
theorem runServices_location_warning (pkg : Packages) (w : World) (ctx : Context)
    (lic : String) (types : List String)
    (hterms : ctx.Bool "agreed-terms-and-conditions" = true)
    (hboot : w.Bootstrap (pkg.ParseFlagsNode ctx) = none)
    (hparse : ∀ t ∈ types, (parseFlagsByServiceType pkg ctx t).2 = none)
    (hfirst : firstReceived pkg w ctx types = some (some GoError.ErrorLocation)) :
    (runServices pkg w ctx lic types).result = .returned none ∧
    output (runServices pkg w ctx lic types).trace =
      output (printLocationWarning pkg "myst") ∧
    (∀ executableName : String,
      output (printLocationWarning pkg executableName) =
        ["Automatic location detection failed. Enter country manually by running program again with " ++
          ("'" ++ executableName ++ " service --" ++ pkg.LocationCountryFlagName ++ "=US'") ++
          " flag", "\n"]) := by
  have hreg : ∀ t ∈ types, t ∈ Registry := fun t ht =>
    (parse_error_iff pkg ctx t).1 (hparse t ht)
  have hrun := runServices_started pkg w ctx lic types hterms hboot hparse
  rw [hfirst] at hrun
  simp only [if_true] at hrun
  refine ⟨by rw [hrun], ?_, ?_⟩
  · have hrec : output [Event.receive] = [] := rfl
    rw [hrun]
    show output (launchTrace pkg ctx types ++ [Event.receive] ++
      printLocationWarning pkg "myst") = _
    rw [output_append, output_append, output_launchTrace pkg ctx types hreg, hrec]
    rfl
  · intro executableName
    have h1 : ("Automatic location detection failed. Enter country manually by running program again " ++
        "with '" : String) =
        "Automatic location detection failed. Enter country manually by running program again with " ++
          "'" := by decide
    have h2 : ∀ x : String, " " ++ ("service" ++ (" --" ++ x)) = " service --" ++ x := by
      intro x
      have h : (" " ++ "service" ++ " --" : String) = " service --" := by decide
      rw [← String.append_assoc, ← String.append_assoc, h]
    have h3 : ("=US' flag" : String) = "=US'" ++ " flag" := by decide
    show [locationWarningText pkg executableName, "\n"] = _
    congr 1
    unfold locationWarningText serviceCommandName
    rw [h1, h3]
    simp only [String.append_assoc]
    rw [h2]

/-- Claim C9, at a sample input: only the noop service, which fails to detect the
location. -/
theorem runServices_location_warning_witness :
    (runServices samplePackages sampleWorld sampleContext "license" ["noop"]).result =
        .returned none ∧
      output (runServices samplePackages sampleWorld sampleContext "license" ["noop"]).trace =
        ["Automatic location detection failed. Enter country manually by running program " ++
          "again with 'myst service --location.country=US' flag", "\n"] :=
  ⟨(runServices_location_warning samplePackages sampleWorld sampleContext "license" ["noop"]
      (by decide) (by decide) (by decide) (by decide)).1,
    by decide⟩

end ServiceCommand

namespace ServiceCommand

/-! ## The command tree -/

theorem foldl_append_singleton {α β : Type} (f : α → β) (xs : List α) (res : List β) :
    xs.foldl (fun res x => res ++ [f x]) res = res ++ xs.map f := by
  induction xs generalizing res with
  | nil => simp
  | cons x xs ih => simp [ih]

theorem getSubcommands_eq (pkg : Packages) (lic : String) (types : List String) :
    getSubcommands pkg lic types =
      List.replicate types.length Command.zero ++ types.map (getSubcommandForType pkg lic) := by
  rw [getSubcommands, foldl_append_singleton]

/-- Claim C6, as the code has it: `getSubcommands` returns twice as many commands as there
are service types. The first `len(serviceTypes)` of them are zero commands, without a name
and without an action, and the command of `serviceTypes[i]` stands at position
`len(serviceTypes) + i`; for the three types of `NewCommand` the names of the subcommands
are three empty names followed by `openvpn`, `wireguard`, `noop`. -/
theorem getSubcommands_prepends_zero_commands (pkg : Packages) (lic : String) :
    (∀ types : List String,
      (getSubcommands pkg lic types).length = 2 * types.length ∧
      (getSubcommands pkg lic types).take types.length =
        List.replicate types.length Command.zero ∧
      (getSubcommands pkg lic types).drop types.length =
        types.map (getSubcommandForType pkg lic)) ∧
    (NewCommand pkg lic).Subcommands.length = 6 ∧
    (NewCommand pkg lic).Subcommands.map Command.Name =
      ["", "", "", "openvpn", "wireguard", "noop"] ∧
    (NewCommand pkg lic).Subcommands.map (fun c => c.Action.isSome) =
      [false, false, false, true, true, true] := by
  refine ⟨fun types => ⟨?_, ?_, ?_⟩, rfl, rfl, rfl⟩
  · rw [getSubcommands_eq]
    simp only [List.length_append, List.length_replicate, List.length_map]
    omega
  · rw [getSubcommands_eq, List.take_left' (List.length_replicate _ _)]
  · rw [getSubcommands_eq, List.drop_left' (List.length_replicate _ _)]

/-- Claim C7, refuted as stated: when `di.Shutdown()` fails, the `After` hook of the
service command and the `After` hook of a subcommand return that very error to the command
line framework. -/
theorem After_hands_on_the_teardown_error :
    sampleWorld.Shutdown = some (GoError.foreign 7) ∧
    (NewCommand samplePackages "license").After.map (fun hook => hook sampleWorld) =
      some (some (GoError.foreign 7)) ∧
    (getSubcommandForType samplePackages "license" "noop").After.map
      (fun hook => hook sampleWorld) = some (some (GoError.foreign 7)) := by
  refine ⟨rfl, rfl, rfl⟩

/-- Claim C7, amended: for the service command and for every per-type subcommand, the
`After` hook returns exactly what `di.Shutdown()` returns, nil when the teardown succeeds
and the teardown error when it fails; the `Action` returns what `runServices` returns, for
the three service types and for the single type of the subcommand. -/
theorem After_returns_Shutdown (pkg : Packages) (lic : String) (w : World) :
    (NewCommand pkg lic).After.map (fun hook => hook w) = some w.Shutdown ∧
    (∀ serviceType : String,
      (getSubcommandForType pkg lic serviceType).After.map (fun hook => hook w) =
        some w.Shutdown) ∧
    (∀ (pkg2 : Packages) (ctx : Context),
      (NewCommand pkg lic).Action.map (fun action => action pkg2 w ctx) =
        some (runServices pkg2 w ctx lic ["openvpn", "wireguard", "noop"])) ∧
    (∀ (serviceType : String) (pkg2 : Packages) (ctx : Context),
      (getSubcommandForType pkg lic serviceType).Action.map
          (fun action => action pkg2 w ctx) =
        some (runServices pkg2 w ctx lic [serviceType])) :=
  ⟨rfl, fun _ => rfl, fun _ _ => rfl, fun _ _ _ => rfl⟩

end ServiceCommand

namespace Random

/-! ## The concurrent random source -/

/-- Claim C10: for every source and every seed, `Seed` and then `Int63` through the wrapper
of `NewConcurrentRandomSource` give what the wrapped source gives for that seed, and leave
the lock free; the wrapper has `Uint64` if and only if the wrapped source has it, and then
`Uint64` through the wrapper gives the value and the next state of the wrapped `Uint64`. -/
theorem NewConcurrentRandomSource_transparent {σ : Type} (src : Source σ) (seed : Int)
    (s : σ) :
    (NewConcurrentRandomSource src).Seed seed (Guarded.new s) =
      some (Guarded.new (src.Seed seed s)) ∧
    (NewConcurrentRandomSource src).Int63 (Guarded.new (src.Seed seed s)) =
      some ((src.Int63 (src.Seed seed s)).1, Guarded.new (src.Int63 (src.Seed seed s)).2) ∧
    ((NewConcurrentRandomSource src).Uint64.isSome = src.Uint64.isSome) ∧
    (∀ uint64, src.Uint64 = some uint64 →
      ∃ wrapped, (NewConcurrentRandomSource src).Uint64 = some wrapped ∧
        ∀ x : σ, wrapped (Guarded.new x) = some ((uint64 x).1, Guarded.new (uint64 x).2)) := by
  refine ⟨rfl, rfl, ?_, ?_⟩
  · simp [NewConcurrentRandomSource]
  · intro uint64 h
    refine ⟨fun g => g.withLock uint64, ?_, fun x => rfl⟩
    simp [NewConcurrentRandomSource, h]

/-- Claim C10, at the inputs of `TestVirtualConstructor`: with seed 4 the wrapper of
`mockRandomSource` returns 4 from `Int63` and has no `Uint64`; the wrapper of
`mockRandomSource64` returns 4 from `Int63` and `uint64(4)` from `Uint64`. -/
theorem NewConcurrentRandomSource_transparent_witness :
    (NewConcurrentRandomSource mockRandomSource).Int63 (Guarded.new 4) =
        some (4, Guarded.new 4) ∧
      (NewConcurrentRandomSource mockRandomSource).Uint64.isSome = false ∧
      (NewConcurrentRandomSource mockRandomSource64).Int63 (Guarded.new 4) =
        some (4, Guarded.new 4) ∧
      (∃ wrapped, (NewConcurrentRandomSource mockRandomSource64).Uint64 = some wrapped ∧
        ∀ x : Int, wrapped (Guarded.new x) = some (toUint64 x, Guarded.new x)) :=
  ⟨(NewConcurrentRandomSource_transparent mockRandomSource 4 0).2.1,
    (NewConcurrentRandomSource_transparent mockRandomSource 4 0).2.2.1,
    (NewConcurrentRandomSource_transparent mockRandomSource64 4 0).2.1,
    (NewConcurrentRandomSource_transparent mockRandomSource64 4 0).2.2.2
      (fun s => (toUint64 s, s)) rfl⟩

end Random
